import Mathlib

/-!
Verification of `src/game_generator.py` (pmoschos/game-creator).

The program is a two-stage LLM pipeline: a developer agent produces a
structured `GameOutput`, a QA agent reviews it producing a structured
`QAOutput`, and on `correct = true` the generated code is written to a
fixed output path. The two agents are external model calls, so they are
modelled as arbitrary response functions supplied as inputs; the run is
embedded as a pure function returning the ordered list of its observable
effects together with its outcome (finished normally or raised).
-/

namespace GameCreator

/-- The `GameOutput` Pydantic model (lines 22-25): `reasoning`, `code` and
`instructions` are all required fields. -/
structure GameOutput where
  reasoning : String
  code : String
  instructions : String
  deriving Repr, DecidableEq

/-- The `QAOutput` Pydantic model (lines 27-29): `reasoning` is required,
`correct` is declared with default value `False`. -/
structure QAOutput where
  reasoning : String
  correct : Bool
  deriving Repr, DecidableEq

/-- Raw field data a model response may carry for `QAOutput` before Pydantic
validation; `none` records that the field was not supplied. -/
structure QAOutputRaw where
  reasoning : Option String
  correct : Option Bool
  deriving Repr, DecidableEq

/-- Pydantic validation of `QAOutput`: `reasoning` is required
(`Field(...)`, line 28: validation fails when it is absent), while
`correct` falls back to its declared default `False` when the model did not
supply it (`Field(False, ...)`, line 29). -/
def QAOutput.validate (raw : QAOutputRaw) : Option QAOutput :=
  match raw.reasoning with
  | some r => some { reasoning := r, correct := raw.correct.getD false }
  | none => none

/-- What the `content` attribute of a phi agent response can hold: either a
structured instance of the declared response model, or plain text that is
not an instance of it. -/
inductive AgentContent (α : Type) where
  | structured (a : α)
  | text (s : String)
  deriving Repr, DecidableEq

/-- A phi agent response as far as the workflow inspects it: its `content`
attribute, with `none` standing for an absent or falsy content. -/
structure AgentRunResponse (α : Type) where
  content : Option (AgentContent α)
  deriving Repr, DecidableEq

/-- The guard `x and x.content and isinstance(x.content, M)` used at lines
124 and 145. An absent response or an absent content fails the truthiness
tests; a plain-text content either is falsy (empty string) or fails the
`isinstance` test; a structured Pydantic instance is always truthy, so the
whole guard passes exactly on structured content. Returns that content. -/
def structuredContent {α : Type} : Option (AgentRunResponse α) → Option α
  | some resp =>
    match resp.content with
    | some (AgentContent.structured a) => some a
    | _ => none
  | none => none

/-- The phi `RunEvent` values the workflow can put in a response; the source
only ever emits `workflow_completed` (lines 130, 156, 162), the other
constructors stand for the rest of the framework's event enum. -/
inductive RunEvent where
  | workflow_completed
  | run_started
  | run_response
  deriving Repr, DecidableEq

/-- A phi `RunResponse` as constructed by the workflow: `run_id`, `event`
and string `content`. -/
structure RunResponse where
  run_id : Option String
  event : RunEvent
  content : String
  deriving Repr, DecidableEq

/-- Whether the run finished normally or raised an exception
(`raise Exception("QA failed for game code; rejected.")`, line 150). -/
inductive RunOutcome where
  | finished
  | raised (msg : String)
  deriving Repr, DecidableEq

/-- The observable effects of a run, in program order: `logger.info` calls,
the two agent invocations, the write to `game_output_path`, and each
`yield`ed `RunResponse`. The QA call carries the two fields serialized into
its prompt by `json.dumps(qa_input, indent=2)` (lines 138-143). -/
inductive Effect where
  | logInfo (msg : String)
  | logQAResponse (q : QAOutput)
  | devCall (prompt : String)
  | qaCall (game_description : String) (game_code : String)
  | writeFile (content : String)
  | yieldResponse (r : RunResponse)
  deriving Repr, DecidableEq

/-- Shallow embedding of `GameGenerator.run` (lines 118-165). The two LLM
agents are external inputs, modelled as response functions (`game_developer`
on the description prompt, `qa_agent` on the description/code pair that the
source serializes into its prompt). The result is the ordered list of
effects the run performs together with its outcome. On the rejection branch
(line 149-150) the exception is raised before any write or yield happens,
so the effect list on that path stops at the QA logging. -/
def GameGenerator.run (run_id : Option String)
    (game_developer : String → Option (AgentRunResponse GameOutput))
    (qa_agent : String × String → Option (AgentRunResponse QAOutput))
    (game_description : String) : List Effect × RunOutcome :=
  let eff0 : List Effect :=
    [Effect.logInfo ("Game description: " ++ game_description),
     Effect.devCall game_description]
  match structuredContent (game_developer game_description) with
  | none =>
    (eff0 ++
      [Effect.yieldResponse
        { run_id := run_id, event := RunEvent.workflow_completed,
          content := "Game generation failed (developer agent)." }],
     RunOutcome.finished)
  | some content =>
    let game_code := content.code
    let eff1 := eff0 ++
      [Effect.logInfo "HTML Game Code generated successfully.",
       Effect.logInfo "Running QA on the generated game...",
       Effect.qaCall game_description game_code]
    match structuredContent (qa_agent (game_description, game_code)) with
    | some qa_content =>
      let eff2 := eff1 ++
        [Effect.logInfo "QA Agent Response:",
         Effect.logQAResponse qa_content]
      if !qa_content.correct then
        (eff2, RunOutcome.raised "QA failed for game code; rejected.")
      else
        (eff2 ++
          [Effect.writeFile game_code,
           Effect.yieldResponse
             { run_id := run_id, event := RunEvent.workflow_completed,
               content := content.instructions }],
         RunOutcome.finished)
    | none =>
      (eff1 ++
        [Effect.yieldResponse
          { run_id := run_id, event := RunEvent.workflow_completed,
            content := "Game generation failed (QA agent)." }],
       RunOutcome.finished)

/-- The content of the file at `game_output_path` after a list of effects,
starting from `file` (`none` = no file). A `writeFile` effect replaces the
whole content (`Path.write_text` truncates and rewrites); no other effect
touches the filesystem. -/
def runFile (file : Option String) : List Effect → Option String
  | [] => file
  | Effect.writeFile s :: rest => runFile (some s) rest
  | _ :: rest => runFile file rest

/-- The contents written to `game_output_path` during a run, in order. -/
def writesOf (effs : List Effect) : List String :=
  effs.filterMap fun e =>
    match e with
    | Effect.writeFile s => some s
    | _ => none

/-- The `RunResponse` values yielded by the generator, in order. -/
def yieldsOf (effs : List Effect) : List RunResponse :=
  effs.filterMap fun e =>
    match e with
    | Effect.yieldResponse r => some r
    | _ => none

/-- The QA-agent invocations performed by the run, in order, with the
description/code pair each was given. -/
def qaCallsOf (effs : List Effect) : List (String × String) :=
  effs.filterMap fun e =>
    match e with
    | Effect.qaCall d c => some (d, c)
    | _ => none

/-- The module-level script (lines 16-19 and 167-169): at import time the
output path is unlinked with `missing_ok=True`, discarding whatever file
existed beforehand (`fileBeforeImport`), then a single run is driven to
completion by the `for` loop. Returns the final file content at
`game_output_path`, the run's effects and its outcome. -/
def script (run_id : Option String)
    (game_developer : String → Option (AgentRunResponse GameOutput))
    (qa_agent : String × String → Option (AgentRunResponse QAOutput))
    (game_description : String) (fileBeforeImport : Option String) :
    Option String × List Effect × RunOutcome :=
  let fileAfterUnlink : Option String := none
  let out := GameGenerator.run run_id game_developer qa_agent game_description
  (runFile fileAfterUnlink out.1, out.1, out.2)

/-- A developer agent that answers every prompt with the structured game
output `g`. -/
def devOk (g : GameOutput) : String → Option (AgentRunResponse GameOutput) :=
  fun _ => some { content := some (AgentContent.structured g) }

/-- A developer agent whose response never carries structured content. -/
def devNone : String → Option (AgentRunResponse GameOutput) :=
  fun _ => none

/-- A QA agent that answers every prompt with the structured verdict `q`. -/
def qaConst (q : QAOutput) : String × String → Option (AgentRunResponse QAOutput) :=
  fun _ => some { content := some (AgentContent.structured q) }

/-- A QA agent whose response never carries structured content. -/
def qaNone : String × String → Option (AgentRunResponse QAOutput) :=
  fun _ => none

/-- The sample generation result of the spec's Scenario A. -/
def gSample : GameOutput :=
  { reasoning := "r", code := "<html>...</html>", instructions := "Use W/S" }

/-- A passing review verdict. -/
def qYes : QAOutput := { reasoning := "ok", correct := true }

/-- A failing review verdict. -/
def qNo : QAOutput := { reasoning := "bad", correct := false }

/-- Claim C1: over any run of `GameGenerator.run`, a write to the output
path occurs if and only if the QA stage produced a structured `QAOutput`
with `correct = true`; on every other path (generation failure, review
failure, rejection) no write occurs, and at most one write ever happens, so
no partial state is persisted. -/
theorem c1_write_iff_review_accepts (rid : Option String)
    (dev : String → Option (AgentRunResponse GameOutput))
    (qa : String × String → Option (AgentRunResponse QAOutput))
    (desc : String) :
    (writesOf (GameGenerator.run rid dev qa desc).1 ≠ [] ↔
      ∃ g q, structuredContent (dev desc) = some g ∧
        structuredContent (qa (desc, g.code)) = some q ∧ q.correct = true) ∧
    (writesOf (GameGenerator.run rid dev qa desc).1).length ≤ 1 := by
  rcases hdev : structuredContent (dev desc) with _ | g
  · refine ⟨?_, ?_⟩ <;> simp [GameGenerator.run, hdev, writesOf]
  · rcases hqa : structuredContent (qa (desc, g.code)) with _ | q
    · refine ⟨?_, ?_⟩ <;> simp [GameGenerator.run, hdev, hqa, writesOf]
    · by_cases hc : q.correct = true
      · refine ⟨?_, ?_⟩ <;> simp [GameGenerator.run, hdev, hqa, hc, writesOf]
      · refine ⟨?_, ?_⟩ <;> simp [GameGenerator.run, hdev, hqa, hc, writesOf]

/-- Claim C2: whenever the review stage returns a structured `QAOutput`
with `correct = false`, the run raises the rejection exception, performs no
write, and (since the output path was unlinked at module import) no file
exists at the output path afterwards, whatever the generation content and
whatever file existed before the script started. -/
theorem c2_rejection_raises_and_no_file (rid : Option String)
    (dev : String → Option (AgentRunResponse GameOutput))
    (qa : String × String → Option (AgentRunResponse QAOutput))
    (desc : String) (f0 : Option String) (g : GameOutput) (q : QAOutput)
    (hdev : structuredContent (dev desc) = some g)
    (hqa : structuredContent (qa (desc, g.code)) = some q)
    (hc : q.correct = false) :
    (GameGenerator.run rid dev qa desc).2
        = RunOutcome.raised "QA failed for game code; rejected." ∧
    writesOf (GameGenerator.run rid dev qa desc).1 = [] ∧
    (script rid dev qa desc f0).1 = none := by
  refine ⟨?_, ?_, ?_⟩ <;>
    simp [GameGenerator.run, script, hdev, hqa, hc, writesOf, runFile]

/-- Witness for C2 at Scenario B inputs: generation succeeds with the
sample game, review returns `correct = false`, a stale file existed
before the module was imported. -/
theorem c2_witness :
    (GameGenerator.run none (devOk gSample) (qaConst qNo) "d").2
        = RunOutcome.raised "QA failed for game code; rejected." ∧
    writesOf (GameGenerator.run none (devOk gSample) (qaConst qNo) "d").1 = [] ∧
    (script none (devOk gSample) (qaConst qNo) "d" (some "stale")).1 = none :=
  c2_rejection_raises_and_no_file none (devOk gSample) (qaConst qNo) "d"
    (some "stale") gSample qNo rfl rfl rfl

/-- Claim C3: when generation yields a structured `GameOutput` and review
yields a structured `QAOutput` with `correct = true`, the content of the
output file after the run is exactly `GameOutput.code`, byte for byte. -/
theorem c3_file_equals_generated_code (rid : Option String)
    (dev : String → Option (AgentRunResponse GameOutput))
    (qa : String × String → Option (AgentRunResponse QAOutput))
    (desc : String) (f0 : Option String) (g : GameOutput) (q : QAOutput)
    (hdev : structuredContent (dev desc) = some g)
    (hqa : structuredContent (qa (desc, g.code)) = some q)
    (hc : q.correct = true) :
    (script rid dev qa desc f0).1 = some g.code := by
  simp [script, GameGenerator.run, hdev, hqa, hc, runFile]

/-- Witness for C3 at Scenario A inputs: the file holds the sample code. -/
theorem c3_witness :
    (script none (devOk gSample) (qaConst qYes) "Create a Pong game" none).1
      = some "<html>...</html>" :=
  c3_file_equals_generated_code none (devOk gSample) (qaConst qYes)
    "Create a Pong game" none gSample qYes rfl rfl rfl

/-- Claim C4: when the generation stage yields no structured `GameOutput`,
the QA agent is never invoked, the run yields exactly the
generation-failure completion message, and no file exists at the output
path afterwards. -/
theorem c4_generation_failure_skips_review (rid : Option String)
    (dev : String → Option (AgentRunResponse GameOutput))
    (qa : String × String → Option (AgentRunResponse QAOutput))
    (desc : String) (f0 : Option String)
    (hdev : structuredContent (dev desc) = none) :
    qaCallsOf (GameGenerator.run rid dev qa desc).1 = [] ∧
    yieldsOf (GameGenerator.run rid dev qa desc).1 =
      [{ run_id := rid, event := RunEvent.workflow_completed,
         content := "Game generation failed (developer agent)." }] ∧
    (script rid dev qa desc f0).1 = none := by
  refine ⟨?_, ?_, ?_⟩ <;>
    simp [GameGenerator.run, script, hdev, qaCallsOf, yieldsOf, runFile]

/-- Witness for C4: a developer agent without structured output. -/
theorem c4_witness :
    qaCallsOf (GameGenerator.run none devNone (qaConst qYes) "d").1 = [] ∧
    yieldsOf (GameGenerator.run none devNone (qaConst qYes) "d").1 =
      [{ run_id := none, event := RunEvent.workflow_completed,
         content := "Game generation failed (developer agent)." }] ∧
    (script none devNone (qaConst qYes) "d" (some "stale")).1 = none :=
  c4_generation_failure_skips_review none devNone (qaConst qYes) "d"
    (some "stale") rfl

/-- Claim C5: the three error kinds have the stated severities. A run whose
generation output is malformed/absent finishes normally yielding the
generation-failure message; a run whose review output is malformed/absent
finishes normally yielding the QA-failure message; a run whose review
explicitly rejects raises a run-terminating exception and yields nothing,
an outcome distinct in kind from the other two. -/
theorem c5_error_severities (rid : Option String) (desc : String)
    (dev1 dev2 dev3 : String → Option (AgentRunResponse GameOutput))
    (qa1 qa2 qa3 : String × String → Option (AgentRunResponse QAOutput))
    (g2 g3 : GameOutput) (q3 : QAOutput)
    (h1 : structuredContent (dev1 desc) = none)
    (h2g : structuredContent (dev2 desc) = some g2)
    (h2q : structuredContent (qa2 (desc, g2.code)) = none)
    (h3g : structuredContent (dev3 desc) = some g3)
    (h3q : structuredContent (qa3 (desc, g3.code)) = some q3)
    (h3c : q3.correct = false) :
    ((GameGenerator.run rid dev1 qa1 desc).2 = RunOutcome.finished ∧
      yieldsOf (GameGenerator.run rid dev1 qa1 desc).1 =
        [{ run_id := rid, event := RunEvent.workflow_completed,
           content := "Game generation failed (developer agent)." }]) ∧
    ((GameGenerator.run rid dev2 qa2 desc).2 = RunOutcome.finished ∧
      yieldsOf (GameGenerator.run rid dev2 qa2 desc).1 =
        [{ run_id := rid, event := RunEvent.workflow_completed,
           content := "Game generation failed (QA agent)." }]) ∧
    ((GameGenerator.run rid dev3 qa3 desc).2
        = RunOutcome.raised "QA failed for game code; rejected." ∧
      yieldsOf (GameGenerator.run rid dev3 qa3 desc).1 = []) := by
  refine ⟨⟨?_, ?_⟩, ⟨?_, ?_⟩, ?_, ?_⟩ <;>
    simp [GameGenerator.run, h1, h2g, h2q, h3g, h3q, h3c, yieldsOf]

/-- Witness for C5: the three failure shapes at concrete agents. -/
theorem c5_witness :
    ((GameGenerator.run none devNone qaNone "d").2 = RunOutcome.finished ∧
      yieldsOf (GameGenerator.run none devNone qaNone "d").1 =
        [{ run_id := none, event := RunEvent.workflow_completed,
           content := "Game generation failed (developer agent)." }]) ∧
    ((GameGenerator.run none (devOk gSample) qaNone "d").2
        = RunOutcome.finished ∧
      yieldsOf (GameGenerator.run none (devOk gSample) qaNone "d").1 =
        [{ run_id := none, event := RunEvent.workflow_completed,
           content := "Game generation failed (QA agent)." }]) ∧
    ((GameGenerator.run none (devOk gSample) (qaConst qNo) "d").2
        = RunOutcome.raised "QA failed for game code; rejected." ∧
      yieldsOf (GameGenerator.run none (devOk gSample) (qaConst qNo) "d").1
        = []) :=
  c5_error_severities none "d" devNone (devOk gSample) (devOk gSample)
    qaNone qaNone (qaConst qNo) gSample gSample qNo rfl rfl rfl rfl rfl rfl

/-- Claim C6: when review returns a structured `QAOutput` with
`correct = true`, the run's reported output is the single completion
response carrying `GameOutput.instructions`, and the code is written to the
fixed output path. -/
theorem c6_success_reports_instructions (rid : Option String)
    (dev : String → Option (AgentRunResponse GameOutput))
    (qa : String × String → Option (AgentRunResponse QAOutput))
    (desc : String) (f0 : Option String) (g : GameOutput) (q : QAOutput)
    (hdev : structuredContent (dev desc) = some g)
    (hqa : structuredContent (qa (desc, g.code)) = some q)
    (hc : q.correct = true) :
    yieldsOf (GameGenerator.run rid dev qa desc).1 =
      [{ run_id := rid, event := RunEvent.workflow_completed,
         content := g.instructions }] ∧
    (script rid dev qa desc f0).1 = some g.code := by
  refine ⟨?_, ?_⟩ <;>
    simp [GameGenerator.run, script, hdev, hqa, hc, yieldsOf, runFile]

/-- Witness for C6 at Scenario A: the reported output is "Use W/S" and the
file holds the sample code. -/
theorem c6_witness :
    yieldsOf (GameGenerator.run none (devOk gSample) (qaConst qYes)
        "Create a Pong game").1 =
      [{ run_id := none, event := RunEvent.workflow_completed,
         content := "Use W/S" }] ∧
    (script none (devOk gSample) (qaConst qYes) "Create a Pong game" none).1
      = some "<html>...</html>" :=
  c6_success_reports_instructions none (devOk gSample) (qaConst qYes)
    "Create a Pong game" none gSample qYes rfl rfl rfl

/-- Claim C7: idempotence of accepted runs. Replaying the effects of an
accepted run on top of the file state the first run left behind produces
the same file content as a single run: the second run overwrites the file
with the same bytes. -/
theorem c7_accepted_run_idempotent (rid : Option String)
    (dev : String → Option (AgentRunResponse GameOutput))
    (qa : String × String → Option (AgentRunResponse QAOutput))
    (desc : String) (g : GameOutput) (q : QAOutput)
    (hdev : structuredContent (dev desc) = some g)
    (hqa : structuredContent (qa (desc, g.code)) = some q)
    (hc : q.correct = true) :
    runFile (runFile none (GameGenerator.run rid dev qa desc).1)
        (GameGenerator.run rid dev qa desc).1
      = runFile none (GameGenerator.run rid dev qa desc).1 := by
  simp [GameGenerator.run, hdev, hqa, hc, runFile]

/-- Witness for C7 at Scenario A inputs. -/
theorem c7_witness :
    runFile
        (runFile none
          (GameGenerator.run none (devOk gSample) (qaConst qYes) "d").1)
        (GameGenerator.run none (devOk gSample) (qaConst qYes) "d").1
      = runFile none
          (GameGenerator.run none (devOk gSample) (qaConst qYes) "d").1 :=
  c7_accepted_run_idempotent none (devOk gSample) (qaConst qYes) "d"
    gSample qYes rfl rfl rfl

/-- A list of effects containing no `writeFile` leaves the file at the
output path untouched. -/
theorem runFile_of_no_writes (f : Option String) (effs : List Effect)
    (h : writesOf effs = []) : runFile f effs = f := by
  induction effs generalizing f with
  | nil => rfl
  | cons e rest ih =>
    cases e with
    | writeFile s => simp [writesOf] at h
    | logInfo m =>
      exact ih f (by simpa [writesOf] using h)
    | logQAResponse q =>
      exact ih f (by simpa [writesOf] using h)
    | devCall p =>
      exact ih f (by simpa [writesOf] using h)
    | qaCall d c =>
      exact ih f (by simpa [writesOf] using h)
    | yieldResponse r =>
      exact ih f (by simpa [writesOf] using h)

/-- Claim C8 as stated is false. A concrete run whose generation stage
fails performs no filesystem operation at all and leaves a pre-existing
file at the output path exactly as it was: `GameGenerator.run` does not
begin by removing or replacing the existing file. (The unlink happens
once, at module import, line 19 — not at the start of each run.) -/
theorem c8_counterexample :
    writesOf (GameGenerator.run none devNone (qaConst qYes) "d").1 = [] ∧
    runFile (some "stale")
        (GameGenerator.run none devNone (qaConst qYes) "d").1
      = some "stale" := by
  constructor
  · rfl
  · rfl

/-- Claim C8, amended: the output path is not cleared at the start of each
invocation of `GameGenerator.run`; instead it is unlinked once at
module-import time, so the script's final file state is independent of any
file existed before the process started, and a run itself modifies the
output path only through the accepted-path write — a run that performs no
write leaves any existing file untouched. -/
theorem c8_unlink_at_import_not_per_run (rid : Option String)
    (dev : String → Option (AgentRunResponse GameOutput))
    (qa : String × String → Option (AgentRunResponse QAOutput))
    (desc : String) (f0 f1 : Option String) :
    (script rid dev qa desc f0).1 = (script rid dev qa desc f1).1 ∧
    (writesOf (GameGenerator.run rid dev qa desc).1 = [] →
      runFile f0 (GameGenerator.run rid dev qa desc).1 = f0) :=
  ⟨rfl, fun h => runFile_of_no_writes f0 _ h⟩

/-- Witness for the amended C8 at concrete inputs: a stale pre-import file
is irrelevant to the script's result, and a write-free run preserves it. -/
theorem c8_witness :
    ((script none devNone qaNone "d" (some "stale")).1
        = (script none devNone qaNone "d" none).1 ∧
      (writesOf (GameGenerator.run none devNone qaNone "d").1 = [] →
        runFile (some "stale")
            (GameGenerator.run none devNone qaNone "d").1
          = some "stale")) ∧
    writesOf (GameGenerator.run none devNone qaNone "d").1 = [] :=
  ⟨c8_unlink_at_import_not_per_run none devNone qaNone "d"
      (some "stale") none, rfl⟩

/-- Claim C9: `QAOutput.correct` defaults to `False`. A structurally valid
review response in which the model did not supply the boolean validates to
`correct = false`, and a run receiving it raises the rejection exception:
no file write, no yielded outcome — neither a review-failure message nor a
success. -/
theorem c9_correct_defaults_to_false (rid : Option String)
    (dev : String → Option (AgentRunResponse GameOutput))
    (qa : String × String → Option (AgentRunResponse QAOutput))
    (desc : String) (g : GameOutput) (raw : QAOutputRaw) (q : QAOutput)
    (hraw : raw.correct = none)
    (hval : QAOutput.validate raw = some q)
    (hdev : structuredContent (dev desc) = some g)
    (hqa : structuredContent (qa (desc, g.code)) = some q) :
    q.correct = false ∧
    (GameGenerator.run rid dev qa desc).2
        = RunOutcome.raised "QA failed for game code; rejected." ∧
    writesOf (GameGenerator.run rid dev qa desc).1 = [] ∧
    yieldsOf (GameGenerator.run rid dev qa desc).1 = [] := by
  have hq : q.correct = false := by
    rcases hr : raw.reasoning with _ | r
    · simp [QAOutput.validate, hr] at hval
    · rw [QAOutput.validate, hr] at hval
      cases hval
      simp [hraw]
  refine ⟨hq, ?_, ?_, ?_⟩ <;>
    simp [GameGenerator.run, hdev, hqa, hq, writesOf, yieldsOf]

/-- Witness for C9: a raw review response that supplies only `reasoning`
validates to a rejecting verdict and the run raises. -/
theorem c9_witness :
    ({ reasoning := some "looks odd", correct := none } : QAOutputRaw).correct
        = none ∧
    QAOutput.validate { reasoning := some "looks odd", correct := none }
        = some { reasoning := "looks odd", correct := false } ∧
    ({ reasoning := "looks odd", correct := false } : QAOutput).correct
          = false ∧
      (GameGenerator.run none (devOk gSample)
            (qaConst { reasoning := "looks odd", correct := false }) "d").2
          = RunOutcome.raised "QA failed for game code; rejected." ∧
      writesOf (GameGenerator.run none (devOk gSample)
            (qaConst { reasoning := "looks odd", correct := false }) "d").1
          = [] ∧
      yieldsOf (GameGenerator.run none (devOk gSample)
            (qaConst { reasoning := "looks odd", correct := false }) "d").1
          = [] :=
  ⟨rfl, rfl,
    c9_correct_defaults_to_false none (devOk gSample)
      (qaConst { reasoning := "looks odd", correct := false }) "d" gSample
      { reasoning := some "looks odd", correct := none }
      { reasoning := "looks odd", correct := false } rfl rfl rfl rfl⟩

/-- Claim C10: every run that finishes without raising yields exactly one
`RunResponse`, and its event is `workflow_completed` — a single terminal
outcome value on each non-raising path. -/
theorem c10_single_completion_event (rid : Option String)
    (dev : String → Option (AgentRunResponse GameOutput))
    (qa : String × String → Option (AgentRunResponse QAOutput))
    (desc : String)
    (h : (GameGenerator.run rid dev qa desc).2 = RunOutcome.finished) :
    (yieldsOf (GameGenerator.run rid dev qa desc).1).map RunResponse.event
      = [RunEvent.workflow_completed] := by
  rcases hdev : structuredContent (dev desc) with _ | g
  · simp [GameGenerator.run, hdev, yieldsOf]
  · rcases hqa : structuredContent (qa (desc, g.code)) with _ | q
    · simp [GameGenerator.run, hdev, hqa, yieldsOf]
    · by_cases hc : q.correct = true
      · simp [GameGenerator.run, hdev, hqa, hc, yieldsOf]
      · exfalso
        rw [GameGenerator.run] at h
        simp [hdev, hqa, hc] at h

/-- Witness for C10 on the successful path at Scenario A inputs. -/
theorem c10_witness :
    (GameGenerator.run none (devOk gSample) (qaConst qYes) "d").2
        = RunOutcome.finished ∧
    (yieldsOf (GameGenerator.run none (devOk gSample) (qaConst qYes)
          "d").1).map RunResponse.event
      = [RunEvent.workflow_completed] :=
  ⟨rfl, c10_single_completion_event none (devOk gSample) (qaConst qYes)
    "d" rfl⟩

end GameCreator
